import Mathlib

/-!
Verification of the retrieval / rerank / generate / retry / confidence pipeline
of the contract-clause RAG service.

The Python sources are shallowly embedded: strings are Lean `String`
(a list of characters, matching Python's sequence-of-code-points view for the
ASCII data the heuristics inspect), Python floats are modelled as exact
rationals `ℚ`, Python ints as `ℤ`, and Python sets of words as `Finset String`.
The external capabilities (embedding model, FAISS index, text-generation
model) are opaque in the source and appear here as function parameters; the
index-search results are an arbitrary list of scored chunks.

File layout: Python-string primitives first, then the data model, then the
embedded functions from `app/api/query.py`, `app/rag/generator.py` and
`app/api/document_analysis.py`, then the theorems.
-/

namespace ClauseRAG

/-! ## Python string primitives -/

/-- Characters treated as whitespace by Python's `str.split()` / `str.strip()`
(ASCII fragment: space, tab, newline, carriage return, vertical tab, form feed). -/
def isPySpace (c : Char) : Bool :=
  c == ' ' || c == '\t' || c == '\n' || c == '\r' || c == '\x0b' || c == '\x0c'

/-- Boolean list-prefix test, first argument is the needle. -/
def isPrefixList : List Char → List Char → Bool
  | [], _ => true
  | _ :: _, [] => false
  | a :: as, b :: bs => a == b && isPrefixList as bs

/-- Boolean list-infix test, first argument is the needle. -/
def isInfixList (n : List Char) : List Char → Bool
  | [] => n.isEmpty
  | b :: bs => isPrefixList n (b :: bs) || isInfixList n bs

/-- Python's `needle in hay` substring test. -/
def containsSub (hay needle : String) : Bool :=
  isInfixList needle.data hay.data

/-- Python's `str.lower()` (ASCII). -/
def pyLower (s : String) : String := ⟨s.data.map Char.toLower⟩

/-- Python's `str.upper()` (ASCII). -/
def pyUpper (s : String) : String := ⟨s.data.map Char.toUpper⟩

/-- Drop the given characters from both ends of a character list,
as Python's `str.strip(chars)` does. -/
def stripList (p : Char → Bool) (l : List Char) : List Char :=
  ((l.dropWhile p).reverse.dropWhile p).reverse

/-- Python's `str.strip()` (whitespace on both ends). -/
def pyStrip (s : String) : String := ⟨stripList isPySpace s.data⟩

/-- Python's `str.strip('.,!?;:')` used on query words. -/
def stripPunct (s : String) : String :=
  ⟨stripList (fun c => c == '.' || c == ',' || c == '!' || c == '?' || c == ';' || c == ':') s.data⟩

/-- Accumulating splitter behind `pyWordsList`; `acc` holds the current word reversed. -/
def pyWordsAux : List Char → List Char → List (List Char)
  | acc, [] => if acc.isEmpty then [] else [acc.reverse]
  | acc, c :: cs =>
    if isPySpace c then
      if acc.isEmpty then pyWordsAux [] cs else acc.reverse :: pyWordsAux [] cs
    else pyWordsAux (c :: acc) cs

/-- Whitespace-separated words of a character list: Python's `str.split()`
(maximal non-whitespace runs, empties discarded). -/
def pyWordsList (l : List Char) : List (List Char) := pyWordsAux [] l

/-- Python's `str.split()`. -/
def pyWords (s : String) : List String := (pyWordsList s.data).map String.mk

/-- Python's `str.split('\n')` on characters: separator-split keeping empties. -/
def splitNlList : List Char → List (List Char)
  | [] => [[]]
  | c :: cs =>
    if c == '\n' then [] :: splitNlList cs
    else
      match splitNlList cs with
      | h :: t => (c :: h) :: t
      | [] => [[c]]

/-- Python's `text.split('\n')`. -/
def splitNl (s : String) : List String := (splitNlList s.data).map String.mk

/-- Python's `sep.join(items)`. -/
def pyJoin (sep : String) : List String → String
  | [] => ""
  | [t] => t
  | t :: ts => t ++ sep ++ pyJoin sep ts

/-- Python's slice `s[:n]`. -/
def strTake (s : String) (n : ℕ) : String := ⟨s.data.take n⟩

/-- Boolean list-suffix test, first argument is the needle. -/
def isSuffixList (n l : List Char) : Bool := isPrefixList n.reverse l.reverse

/-- Python's `s.endswith((t₁, t₂, ...))`. -/
def endsWithAnyStr (s : String) (ts : List String) : Bool :=
  ts.any (fun t => isSuffixList t.data s.data)

/-- Python's `s.startswith(t)`. -/
def startsWithStr (s t : String) : Bool := isPrefixList t.data s.data

/-- Python's `str.isupper()` (ASCII): at least one letter and no lowercase letter. -/
def pyIsUpper (s : String) : Bool :=
  s.data.any (fun c => c.isAlpha) && s.data.all (fun c => !c.isAlpha || c.isUpper)

/-- Python's `str.capitalize()`: first character uppercased, the rest lowercased. -/
def pyCapitalize (s : String) : String :=
  match s.data with
  | [] => s
  | c :: cs => ⟨c.toUpper :: cs.map Char.toLower⟩

/-- Python's `int(x)` on a float: truncation toward zero, modelled on `ℚ`. -/
def pyInt (q : ℚ) : ℤ := if q < 0 then -(⌊-q⌋) else ⌊q⌋

/-! ## Data model

Mirrors the dictionaries flowing through `app/api/query.py`: the entries
returned by `LegalVectorStore.search` (`score`, `text`, `metadata`), the
reranked entries produced by `rerank_by_answerability` (original entry plus
`original_score`, `answer_bonus`, overwritten `score`), the structured
explanation dictionary produced by the generator, and the endpoint response. -/

/-- Chunk provenance carried in the search-result `metadata` field
(`source` and `page`, as used when assembling the response section label). -/
structure Metadata where
  source : String
  page : String
deriving DecidableEq, Repr, Inhabited

/-- One entry of the list returned by `LegalVectorStore.search`:
a FAISS similarity (a float, modelled as `ℚ`) plus the chunk text. -/
structure SearchResult where
  score : ℚ
  text : String
  metadata : Metadata
deriving DecidableEq, Repr, Inhabited

/-- One entry of the list returned by `rerank_by_answerability`: the original
entry spread into a new dictionary with `original_score`, `answer_bonus`, and
`score` overwritten by the combined score. -/
structure RerankedResult where
  score : ℚ
  original_score : ℚ
  answer_bonus : ℚ
  text : String
  metadata : Metadata
deriving DecidableEq, Repr, Inhabited

/-- Forget the reranking annotations, recovering the search-result entry
the reranked entry was built from. -/
def toSearchResult (r : RerankedResult) : SearchResult :=
  { score := r.original_score, text := r.text, metadata := r.metadata }

/-- The structured explanation dictionary built by
`LegalResponseGenerator.generate_structured_explanation`. -/
structure Explanation where
  summary : String
  meaning : String
  favoredParty : String
  keyTerms : List String
  practicalImpact : String
  confidence : ℤ
  confidenceReason : String
deriving DecidableEq, Repr, Inhabited

/-- The `clause` part of the endpoint response. The Python key `section` is a
Lean keyword, so the field is named `sectionLabel` here. -/
structure ClauseOut where
  title : String
  sectionLabel : String
  content : String
deriving DecidableEq, Repr, Inhabited

/-- The `relevance` part of the endpoint response. -/
structure Relevance where
  score : ℤ
  matchedTerms : List String
deriving DecidableEq, Repr, Inhabited

/-- The dictionary returned by `query_clauses`: either an `error` string with
the other fields null, or the clause / explanation / relevance triple. -/
inductive QueryResponse where
  | error (msg : String)
  | ok (clause : ClauseOut) (explanation : Explanation) (relevance : Relevance)
deriving DecidableEq, Repr

/-! ## app/api/query.py — answerability scoring and reranking -/

/-- `calculate_answer_likelihood(chunk_text, query)` from `app/api/query.py`:
question-aware bonus score built from additive pattern rules. -/
def calculate_answer_likelihood (chunk_text query : String) : ℚ :=
  let query_lower := pyLower query
  let chunk_lower := pyLower chunk_text
  let s1 : ℚ :=
    if ["define", "defined", "definition", "what is", "what constitutes"].any
        (fun w => containsSub query_lower w) then
      if ["represents", "means", "constitutes", "is defined as", "refers to"].any
          (fun w => containsSub chunk_lower w) then 3/10 else 0
    else 0
  let s2 : ℚ :=
    if ["argument", "argued", "claimed", "contended", "defense"].any
        (fun w => containsSub query_lower w) then
      (if containsSub query_lower "company" && containsSub chunk_lower "company" then 2/10 else 0) +
      (if containsSub query_lower "commission" && containsSub chunk_lower "commission" then 2/10 else 0)
    else 0
  let s3 : ℚ :=
    if ["visit", "during", "when", "actions", "first", "second"].any
        (fun w => containsSub query_lower w) then
      if ["visit", "date:", "may", "june", "first", "second"].any
          (fun w => containsSub chunk_lower w) then 1/4 else 0
    else 0
  let s4 : ℚ :=
    if startsWithStr query_lower "how" || startsWithStr query_lower "why" then
      if 500 < chunk_text.length then 1/10 else 0
    else 0
  let s5 : ℚ :=
    if ["summary", "about", "overview", "case"].any (fun w => containsSub query_lower w) then
      if ["overview", "introduction", "summary", "concern"].any
          (fun w => containsSub chunk_lower w) then 2/10 else 0
    else 0
  let query_keywords := (pyWords query_lower).filter (fun w => 4 < w.length)
  let keyword_matches := query_keywords.countP (fun kw => containsSub chunk_lower kw)
  let s6 : ℚ := min (3/10) ((keyword_matches : ℚ) * (1/10))
  s1 + s2 + s3 + s4 + s5 + s6

/-- The dictionary `{**result, 'original_score': ..., 'answer_bonus': ..., 'score': ...}`
built for each entry inside `rerank_by_answerability`. -/
def augmentResult (query : String) (r : SearchResult) : RerankedResult :=
  let answer_bonus := calculate_answer_likelihood r.text query
  { score := r.score * (7/10) + answer_bonus * (3/10)
    original_score := r.score
    answer_bonus := answer_bonus
    text := r.text
    metadata := r.metadata }

/-- `rerank_by_answerability(results, query)` from `app/api/query.py`:
augment each result with the combined score, then sort descending by the
combined score. Python's `list.sort` is a stable sort, modelled by
`List.mergeSort` with the order "combined score at least as large". -/
def rerank_by_answerability (results : List SearchResult) (query : String) :
    List RerankedResult :=
  (results.map (augmentResult query)).mergeSort (fun a b => decide (b.score ≤ a.score))

/-! ## app/api/query.py — empty-answer detection -/

/-- The `empty_phrases` list inside `is_empty_answer`. -/
def empty_phrases : List String :=
  ["does not contain", "not contain information", "context does not", "does not address",
   "not specified", "not mentioned", "no information", "[topic]", "[specific aspect"]

/-- `is_empty_answer(explanation)` from `app/api/query.py`: the explanation's
`meaning` field, lowercased, contains one of the empty phrases and is shorter
than 150 characters. -/
def is_empty_answer (explanation : Explanation) : Bool :=
  let meaning := pyLower explanation.meaning
  let has_empty_phrase := empty_phrases.any (fun p => containsSub meaning p)
  let is_short := meaning.length < 150
  has_empty_phrase && is_short

/-! ## app/rag/generator.py — out-of-context detection and fallback -/

/-- The `out_of_context_phrases` list inside
`LegalResponseGenerator._is_out_of_context_answer`. -/
def out_of_context_phrases : List String :=
  ["i don\x27t have", "i do not have", "not mentioned", "not specified", "not provided",
   "not contain", "does not contain", "no information", "cannot find", "not found",
   "not available", "context does not", "the context does not", "not in the context"]

/-- `_is_out_of_context_answer(answer)` from `app/rag/generator.py`: the answer
is shorter than 100 characters and its lowercase form contains one of the
out-of-context phrases. -/
def is_out_of_context_answer (answer : String) : Bool :=
  let answer_lower := pyLower answer
  answer.length < 100 && out_of_context_phrases.any (fun p => containsSub answer_lower p)

/-- The fallback text substituted by `generate_structured_explanation` when
`_is_out_of_context_answer` fires (generator.py line 98), which is also the
fixed answer text of the low-relevance gate in `query_clauses`. -/
def no_info_message : String := "I don\x27t have information about that in this document."

/-! ## app/rag/generator.py — context-window truncation -/

/-- The `max_context_chars` computation in `generate_structured_explanation`:
`max(400, 2000 - (350 + len(query)))` with `prompt_overhead = 350 + len(query)`
and `max_total_chars = 2000`. -/
def max_context_chars (query : String) : ℤ :=
  max 400 (2000 - (350 + (query.length : ℤ)))

/-- The `context_to_use` computation in `generate_structured_explanation`:
the clause text is right-truncated to `max_context_chars` characters when it
is longer, otherwise used unchanged. -/
def context_to_use (query clause_text : String) : String :=
  if max_context_chars query < (clause_text.length : ℤ) then
    strTake clause_text (max_context_chars query).toNat
  else clause_text

/-! ## app/rag/generator.py — honest confidence estimator

`_calculate_honest_confidence` threads an integer score and a list of reason
strings through seven sequential rules. Each rule is one contiguous block of
the Python function, modelled as a stage function on the `(score, reasons)`
pair. -/

/-- Rule 1 (grounding): adjust by the answer/context word-overlap ratio. -/
def groundingStage (answer_context_overlap : ℚ) (sr : ℤ × List String) : ℤ × List String :=
  if 1/2 < answer_context_overlap then (sr.1 + 20, sr.2 ++ ["strongly grounded in context"])
  else if 3/10 < answer_context_overlap then (sr.1 + 10, sr.2 ++ ["moderately grounded in context"])
  else if 3/20 < answer_context_overlap then (sr.1 + 5, sr.2 ++ ["weakly grounded in context"])
  else (sr.1 - 10, sr.2 ++ ["limited context grounding"])

/-- Rule 2 (query-answer relevance): adjust by the cleaned query/answer overlap. -/
def queryAnswerStage (query_answer_overlap : ℚ) (sr : ℤ × List String) : ℤ × List String :=
  if 3/5 < query_answer_overlap then (sr.1 + 10, sr.2 ++ ["directly addresses query"])
  else if 3/10 < query_answer_overlap then (sr.1 + 5, sr.2)
  else (sr.1 - 5, sr.2 ++ ["may not fully address query"])

/-- Rule 3 (specificity): penalize more than two generic phrases. -/
def genericStage (generic_count : ℕ) (sr : ℤ × List String) : ℤ × List String :=
  if 2 < generic_count then (sr.1 - 10, sr.2 ++ ["contains generic phrasing"]) else sr

/-- Rule 4 (completeness): compare answer length against query complexity. -/
def completenessStage (query_complexity answer_length : ℕ) (sr : ℤ × List String) :
    ℤ × List String :=
  if 10 < query_complexity ∧ 200 < answer_length then
    (sr.1 + 10, sr.2 ++ ["comprehensive answer for complex query"])
  else if 10 < query_complexity ∧ answer_length < 100 then
    (sr.1 - 15, sr.2 ++ ["brief answer for complex question"])
  else if query_complexity ≤ 5 ∧ 150 < answer_length then
    (sr.1 + 5, sr.2 ++ ["detailed answer"])
  else sr

/-- The `uncertainty_phrases` list of rule 5. -/
def uncertainty_phrases : List String :=
  ["not contain", "does not specify", "unclear", "not mentioned", "not provided",
   "no information"]

/-- The rule-5 trigger: the lowercase answer contains an uncertainty phrase. -/
def uncertaintyHit (answer : String) : Bool :=
  uncertainty_phrases.any (fun p => containsSub (pyLower answer) p)

/-- Rule 5 (uncertainty): cap the score at 55 when the trigger fires. -/
def uncertaintyStage (hit : Bool) (sr : ℤ × List String) : ℤ × List String :=
  if hit then (min sr.1 55, sr.2 ++ ["information not found in context"]) else sr

/-- Rule 6 (context quality): adjust by raw context length. -/
def richnessStage (context_length : ℕ) (sr : ℤ × List String) : ℤ × List String :=
  if 1500 < context_length then (sr.1 + 8, sr.2 ++ ["substantial context"])
  else if 800 < context_length then (sr.1 + 4, sr.2)
  else if context_length < 300 then (sr.1 - 5, sr.2 ++ ["limited context"])
  else sr

/-- Rule 7 (truncation indicator): penalize suspicious endings. -/
def truncationStage (answer : String) (sr : ℤ × List String) : ℤ × List String :=
  if endsWithAnyStr answer ["...", "etc", "and more"] then
    (sr.1 - 5, sr.2 ++ ["answer may be incomplete"])
  else sr

/-- The final reason string: first reason capitalized, up to two more in
parentheses (`_calculate_honest_confidence`, closing lines). -/
def buildConfidenceReason (reasons : List String) : String :=
  let main_reason := reasons.headD "standard response quality"
  if 1 < reasons.length then
    pyCapitalize main_reason ++ " (" ++ pyJoin ", " ((reasons.drop 1).take 2) ++ ")"
  else
    pyCapitalize main_reason

/-- `_calculate_honest_confidence(query, context, answer)` from
`app/rag/generator.py`: base score 60, the seven rules in order, final score
clamped to `[35, 95]`, paired with the assembled reason string. -/
def calculate_honest_confidence (query context answer : String) : ℤ × String :=
  let query_words := ((pyWords (pyLower query)).toFinset : Finset String)
  let answer_words := ((pyWords (pyLower answer)).toFinset : Finset String)
  let context_words := ((pyWords (pyLower context)).toFinset : Finset String)
  let answer_context_overlap : ℚ :=
    ((answer_words ∩ context_words).card : ℚ) / ((max answer_words.card 1 : ℕ) : ℚ)
  let sr1 := groundingStage answer_context_overlap (60, [])
  let query_words_clean :=
    query_words \ ({"what", "is", "the", "a", "an", "how", "why", "when", "where", "did"} :
      Finset String)
  let query_answer_overlap : ℚ :=
    ((query_words_clean ∩ answer_words).card : ℚ) / ((max query_words_clean.card 1 : ℕ) : ℚ)
  let sr2 := queryAnswerStage query_answer_overlap sr1
  let generic_count :=
    (["the context", "the document", "it states", "according to", "as mentioned"].countP
      (fun p => containsSub (pyLower answer) p))
  let sr3 := genericStage generic_count sr2
  let sr4 := completenessStage (pyWords query).length answer.length sr3
  let sr5 := uncertaintyStage (uncertaintyHit answer) sr4
  let sr6 := richnessStage context.length sr5
  let sr7 := truncationStage answer sr6
  (max 35 (min 95 sr7.1), buildConfidenceReason sr7.2)

/-! ## app/api/query.py — response assembly helpers -/

/-- A word character for the regex `\b` boundary (`[A-Za-z0-9_]`, ASCII). -/
def isWordChar (c : Char) : Bool := c.isAlphanum || c == '_'

/-- Does the list contain a digit, a dot, then a digit — equivalently, does
the regex `\d+\.\d+` match somewhere. -/
def hasDigitDotDigit : List Char → Bool
  | a :: b :: c :: rest => (a.isDigit && b == '.' && c.isDigit) || hasDigitDotDigit (b :: c :: rest)
  | _ => false

/-- Does `[Aa]rticle\s+\d+` match at the head of the list: the literal word,
at least one whitespace character, then a digit. -/
def articleAt : List Char → Bool
  | a :: r :: t :: i :: c :: l :: e :: rest =>
    (a == 'A' || a == 'a') && r == 'r' && t == 't' && i == 'i' && c == 'c' && l == 'l' &&
      e == 'e' &&
    (match rest with
     | [] => false
     | w :: _ =>
       w.isWhitespace &&
       (match rest.dropWhile Char.isWhitespace with
        | d :: _ => d.isDigit
        | [] => false))
  | _ => false

/-- Scan for `\b[Aa]rticle\s+\d+`: `prevWord` records whether the previous
character was a word character (no match may start right after one). -/
def articleScan (prevWord : Bool) : List Char → Bool
  | [] => false
  | c :: cs => (!prevWord && articleAt (c :: cs)) || articleScan (isWordChar c) cs

/-- The test `re.search(r'\d+\.\d+|\b[Aa]rticle\s+\d+', line)` used in
`extract_clause_info`. -/
def sectionPatternHit (line : String) : Bool :=
  hasDigitDotDigit line.data || articleScan false line.data

/-- The title/section pair returned by `extract_clause_info`. -/
structure ClauseInfo where
  title : String
  sectionLabel : String
deriving DecidableEq, Repr, Inhabited

/-- `extract_clause_info(text)` from `app/api/query.py`: among the first three
lines prefer a stripped all-uppercase line of at most ten words, then a line
matching the numbered-section / Article pattern, else fall back to the first
line, truncated to 100 characters with an ellipsis and uppercased. -/
def extract_clause_info (text : String) : ClauseInfo :=
  let lines := splitNl text
  match ((lines.take 3).map pyStrip).find?
      (fun line => !(line == "") && pyIsUpper line && decide ((pyWords line).length ≤ 10)) with
  | some line => { title := line, sectionLabel := "Article — Section" }
  | none =>
    match (lines.take 3).find? (fun line => sectionPatternHit line) with
    | some line => { title := pyUpper (pyStrip line), sectionLabel := "Section Detected" }
    | none =>
      let first_line := pyStrip (lines.headD "")
      let first_line := if 100 < first_line.length then strTake first_line 100 ++ "..." else first_line
      { title := if first_line == "" then "RETRIEVED CLAUSE" else pyUpper first_line
        sectionLabel := "Contract Clause" }

/-- The stopword set of `extract_matched_terms`. -/
def matched_terms_stopwords : List String :=
  ["the", "a", "an", "and", "or", "but", "in", "on", "at", "to", "for",
   "of", "with", "by", "from", "is", "are", "was", "were", "what", "how",
   "when", "where", "which", "who", "about", "this", "that", "these", "those"]

/-- `extract_matched_terms(query, text)` from `app/api/query.py`: the
punctuation-stripped non-stopword query words of length above two that occur
in the lowercased text, at most six, with a generic fallback. -/
def extract_matched_terms (query text : String) : List String :=
  let query_lower := pyLower query
  let text_lower := pyLower text
  let query_words :=
    ((pyWords query_lower).filter
      (fun word => !matched_terms_stopwords.contains (stripPunct word) && 2 < word.length)).map
      stripPunct
  let matched := query_words.filter (fun word => containsSub text_lower word)
  let matched := if matched.isEmpty then ["contract", "clause", "legal"] else matched
  matched.take 6

/-! ## app/api/query.py — the orchestrator `query_clauses`

The index load, the query embedding and the FAISS search are calls into
external capabilities; the pipeline from the returned search results onward
(lines 161-281) is embedded below. The no-index early return (FileNotFoundError
branch) precedes the search and is not part of this function. The
text-generation capability `generate_structured_explanation` appears as an
opaque parameter `gen` taking query, clause text and metadata. Python would
raise `IndexError` at `reranked_results[0]` if `top_k = 0`; the model then
reads the `Inhabited` default instead — no claim concerns `top_k = 0`. -/

/-- How a generation backend is abstracted: query, clause text, metadata in;
structured explanation out. -/
def GenFn : Type := String → String → Metadata → Explanation

/-- The first element's `text`, as Python's `reranked_results[0]['text']`. -/
def headText : List RerankedResult → String
  | [] => ""
  | r :: _ => r.text

/-- The first element's `metadata`, as Python's `reranked_results[0]['metadata']`. -/
def headMeta : List RerankedResult → Metadata
  | [] => default
  | r :: _ => r.metadata

/-- The aggregated context `"\n\n".join([r['text'] for r in reranked_results[:k]])`. -/
def aggregate (rs : List RerankedResult) (k : ℕ) : String :=
  pyJoin "\n\n" ((rs.take k).map (fun r => r.text))

/-- The retry controller of `query_clauses` (lines 211-240): first attempt on
the top-3 aggregated context, then, while the empty-answer detector fires and
more than one result exists, a retry on the top-2 aggregated context and a
final retry on the single best reranked chunk's raw text. Returns the
explanation kept by the controller. -/
def final_explanation (gen : GenFn) (query : String) (rs : List RerankedResult) : Explanation :=
  let md := headMeta rs
  let ai1 := gen query (aggregate rs 3) md
  if is_empty_answer ai1 && decide (1 < rs.length) then
    let ai2 := gen query (aggregate rs 2) md
    if is_empty_answer ai2 && decide (1 < rs.length) then gen query (headText rs) md
    else ai2
  else ai1

/-- The sequence of clause-text contexts handed to the generation capability
by the retry controller, in order of attempt (same branch structure as
`final_explanation`). -/
def generation_attempts (gen : GenFn) (query : String) (rs : List RerankedResult) :
    List String :=
  let md := headMeta rs
  let ai1 := gen query (aggregate rs 3) md
  if is_empty_answer ai1 && decide (1 < rs.length) then
    let ai2 := gen query (aggregate rs 2) md
    if is_empty_answer ai2 && decide (1 < rs.length) then
      [aggregate rs 3, aggregate rs 2, headText rs]
    else [aggregate rs 3, aggregate rs 2]
  else [aggregate rs 3]

/-- `query_clauses(query, index_dir, top_k)` from the search results onward:
no-results error, the low-relevance gate at threshold 0.5, reranking,
aggregation, generation with the retry controller, and response assembly. -/
def query_clauses_core (gen : GenFn) (query : String) (search_results : List SearchResult)
    (top_k : ℕ) : QueryResponse :=
  match search_results with
  | [] => .error "No relevant clauses found for your query."
  | top :: rest =>
    if top.score < 1/2 then
      .ok
        { title := "Information Not Available", sectionLabel := "N/A", content := "" }
        { summary := no_info_message
          meaning := no_info_message
          favoredParty := "N/A"
          keyTerms := []
          practicalImpact := ""
          confidence := 30
          confidenceReason := "Query does not match document content" }
        { score := pyInt (top.score * 100), matchedTerms := [] }
    else
      let reranked_results := rerank_by_answerability ((top :: rest).take top_k) query
      let top_result := reranked_results.headI
      let ai_explanation := final_explanation gen query reranked_results
      let clause_info := extract_clause_info top_result.text
      let relevance_score := pyInt (top_result.original_score * 100)
      let matched_terms := extract_matched_terms query top_result.text
      .ok
        { title := clause_info.title
          sectionLabel := top_result.metadata.source ++ " — Page " ++ top_result.metadata.page
          content := top_result.text }
        ai_explanation
        { score := relevance_score, matchedTerms := matched_terms }

/-- The `relevance.score` field of a response, `none` for the error shape. -/
def relevanceScoreOf : QueryResponse → Option ℤ
  | .error _ => none
  | .ok _ _ rel => some rel.score

/-! ## app/api/document_analysis.py — deduplication -/

/-- The normalization key `item.lower().strip()` of `deduplicate_items`. -/
def dedupKey (item : String) : String := pyStrip (pyLower item)

/-- The loop of `deduplicate_items`: `seen` is the set of keys already kept. -/
def dedupGo (seen : List String) : List String → List String
  | [] => []
  | item :: items =>
    let key := dedupKey item
    if !seen.contains key && !(key == "") then item :: dedupGo (key :: seen) items
    else dedupGo seen items

/-- `deduplicate_items(items)` from `app/api/document_analysis.py`: keep the
first item for each new non-empty normalization key, preserving order. -/
def deduplicate_items (items : List String) : List String := dedupGo [] items

/-! ## Definitions following the specification text

These two definitions are written from the specification's words, not from
the source, so that the source-derived functions above can be compared
against them. -/

/-- The phrase list of spec §4.6 for the empty-answer detector, as repeated by
the claim: it includes "i don\x27t have", "cannot find", "not found",
"not available" and "not in the context". -/
def spec_empty_phrases : List String :=
  ["i don\x27t have", "not mentioned", "not specified", "not provided", "not contain",
   "does not contain", "no information", "cannot find", "not found", "not available",
   "context does not", "the context does not", "not in the context"]

/-- The empty-answer detector exactly as the claim states it: answer text
shorter than 150 characters and containing, case-insensitively, one of the
listed non-answer phrases. -/
def spec_empty_detector (answerText : String) : Bool :=
  decide (answerText.length < 150) &&
    spec_empty_phrases.any (fun p => containsSub (pyLower answerText) p)

/-- First-occurrence formulation of deduplication, following the amended
claim's words: drop items whose lowercased, whitespace-stripped key is empty
and keep the first item of each remaining key, preserving first-seen order. -/
def dedup_first_occurrence : List String → List String
  | [] => []
  | x :: xs =>
    if dedupKey x == "" then dedup_first_occurrence xs
    else x :: dedup_first_occurrence (xs.filter (fun y => !(dedupKey y == dedupKey x)))
termination_by l => l.length
decreasing_by
  · simp only [List.length_cons]; omega
  · simp only [List.length_cons]
    exact Nat.lt_succ_of_le (List.filter_sublist _).length_le

/-! ## Concrete fixtures used by witnesses and counterexamples -/

/-- An explanation dictionary whose summary and meaning are the given text. -/
def mkExplanation (m : String) : Explanation :=
  { summary := m, meaning := m, favoredParty := "N/A", keyTerms := [],
    practicalImpact := "", confidence := 60, confidenceReason := "" }

/-- A generation backend that always returns the same explanation. -/
def genOf (e : Explanation) : GenFn := fun _ _ _ => e

/-- A substantive answer, not flagged by the empty-answer detector. -/
def expYes : Explanation := mkExplanation "Yes."

/-- A non-answer, flagged by the empty-answer detector. -/
def expEmpty : Explanation := mkExplanation "not mentioned"

/-- Sample provenance. -/
def sampleMeta : Metadata := { source := "doc.pdf", page := "1" }

/-- A search result whose similarity 1/4 is below the 0.5 relevance gate. -/
def searchLow : SearchResult := { score := 1/4, text := "t", metadata := sampleMeta }

/-- A search result with a negative cosine similarity, as inner-product
search on normalized vectors can return (spec data model: similarity ∈ [-1,1]). -/
def searchNeg : SearchResult := { score := -(1/5), text := "t", metadata := sampleMeta }

/-- A search result whose similarity 3/5 passes the relevance gate. -/
def searchOk : SearchResult := { score := 3/5, text := "T", metadata := sampleMeta }

/-- Two reranked results, used to drive the retry controller to its last state. -/
def rsPair : List RerankedResult :=
  [{ score := 1, original_score := 1, answer_bonus := 0, text := "AA", metadata := sampleMeta },
   { score := 1/2, original_score := 1/2, answer_bonus := 0, text := "BB", metadata := sampleMeta }]

/-- A context of 808 characters (between the 800 and 1500 richness thresholds)
whose words cover the words of the uncertain answer `"beta not provided"`. -/
def bigContext : String := "beta not provided " ++ ⟨List.replicate 790 'x'⟩

/-- An uncertain answer fully grounded in `bigContext`. -/
def uncertainAnswer : String := "beta not provided"

/-- A 300-character answer containing "not mentioned" exactly once. -/
def meaning300 : String := ⟨List.replicate 150 'a'⟩ ++ "not mentioned" ++ ⟨List.replicate 137 'b'⟩

/-! ## Supporting lemmas -/

/-- Lowercasing does not change the length of a string. -/
lemma length_pyLower (s : String) : (pyLower s).length = s.length :=
  List.length_map s.data Char.toLower

/-- When the uncertainty rule fires, it leaves the score at most 55. -/
lemma uncertaintyStage_fst_le (sr : ℤ × List String) : (uncertaintyStage true sr).1 ≤ 55 := by
  simp only [uncertaintyStage, if_true]
  exact min_le_right _ _

/-- The context-richness rule raises the score by at most 8. -/
lemma richnessStage_fst_le (n : ℕ) (sr : ℤ × List String) :
    (richnessStage n sr).1 ≤ sr.1 + 8 := by
  unfold richnessStage
  split_ifs
  · show sr.1 + 8 ≤ sr.1 + 8
    omega
  · show sr.1 + 4 ≤ sr.1 + 8
    omega
  · show sr.1 - 5 ≤ sr.1 + 8
    omega
  · omega

/-- The truncation-indicator rule never raises the score. -/
lemma truncationStage_fst_le (a : String) (sr : ℤ × List String) :
    (truncationStage a sr).1 ≤ sr.1 := by
  unfold truncationStage
  split_ifs
  · show sr.1 - 5 ≤ sr.1
    omega
  · omega

/-- After the uncertainty cap fires, the remaining two rules cannot push the
score above 63. -/
lemma capped_stages_le (answer context : String) (sr4 : ℤ × List String) :
    (truncationStage answer (richnessStage context.length (uncertaintyStage true sr4))).1 ≤ 63 := by
  have h5 := uncertaintyStage_fst_le sr4
  have h6 := richnessStage_fst_le context.length (uncertaintyStage true sr4)
  have h7 := truncationStage_fst_le answer (richnessStage context.length (uncertaintyStage true sr4))
  omega

/-- Bounds for the displayed relevance score when the similarity is in `[0,1]`. -/
lemma pyInt_hundred_bounds {s : ℚ} (h0 : 0 ≤ s) (h1 : s ≤ 1) :
    0 ≤ pyInt (s * 100) ∧ pyInt (s * 100) ≤ 100 := by
  have hq0 : (0:ℚ) ≤ s * 100 := by positivity
  have hq1 : s * 100 ≤ 100 := by nlinarith
  unfold pyInt
  rw [if_neg (not_lt.mpr hq0)]
  constructor
  · exact Int.floor_nonneg.mpr hq0
  · calc ⌊s * 100⌋ ≤ ⌊(100:ℚ)⌋ := Int.floor_le_floor hq1
      _ = 100 := by norm_num

/-- `context_to_use` is exactly the right-truncation of the clause text to the
`max_context_chars` budget. -/
lemma context_to_use_eq_take (q t : String) :
    context_to_use q t = strTake t (max_context_chars q).toNat := by
  unfold context_to_use
  split_ifs with h
  · rfl
  · obtain ⟨d⟩ := t
    have h0 : (0:ℤ) ≤ max_context_chars q :=
      le_trans (by norm_num) (le_max_left 400 (2000 - (350 + (q.length : ℤ))))
    have hle : ((String.mk d).length : ℤ) ≤ max_context_chars q := le_of_not_lt h
    have hn : d.length ≤ (max_context_chars q).toNat := (Int.le_toNat h0).mpr hle
    exact congrArg String.mk (List.take_of_length_le hn).symm

/-- The `dedupGo` loop with a starting `seen` set computes the
first-occurrence deduplication of the items whose keys avoid `seen`. -/
lemma dedupGo_eq : ∀ (l seen : List String),
    dedupGo seen l = dedup_first_occurrence (l.filter (fun y => !(seen.contains (dedupKey y))))
  | [], seen => by simp [dedupGo, dedup_first_occurrence]
  | x :: xs, seen => by
    by_cases hseen : dedupKey x ∈ seen
    · have hl : dedupGo seen (x :: xs) = dedupGo seen xs := by
        simp [dedupGo, hseen]
      rw [hl, dedupGo_eq xs seen, List.filter_cons]
      simp [hseen]
    · have hc : (!(seen.contains (dedupKey x))) = true := by simp [hseen]
      by_cases hkey : dedupKey x = ""
      · have hl : dedupGo seen (x :: xs) = dedupGo seen xs := by
          simp [dedupGo, hkey]
        rw [hl, dedupGo_eq xs seen, List.filter_cons, if_pos hc]
        conv_rhs => rw [dedup_first_occurrence]
        rw [if_pos (show (dedupKey x == "") = true by simp [hkey])]
      · have hl : dedupGo seen (x :: xs) = x :: dedupGo (dedupKey x :: seen) xs := by
          simp [dedupGo, hseen, hkey]
        rw [hl, dedupGo_eq xs (dedupKey x :: seen), List.filter_cons, if_pos hc]
        conv_rhs => rw [dedup_first_occurrence]
        rw [if_neg (show ¬((dedupKey x == "") = true) by simp [hkey])]
        have hfilter : List.filter (fun y => !((dedupKey x :: seen).contains (dedupKey y))) xs =
            List.filter (fun y => !(dedupKey y == dedupKey x))
              (List.filter (fun y => !(seen.contains (dedupKey y))) xs) := by
          rw [List.filter_filter]
          apply List.filter_congr
          intro y _
          simp only [List.contains_cons, Bool.not_or]
        rw [hfilter]

/-! ## Theorems for the claims -/

/-- C6: for every query, context and answer, the confidence score returned by
`_calculate_honest_confidence` is an integer in the closed interval [35, 95]. -/
theorem confidence_score_in_35_95 (query context answer : String) :
    35 ≤ (calculate_honest_confidence query context answer).1 ∧
    (calculate_honest_confidence query context answer).1 ≤ 95 := by
  constructor
  · show (35:ℤ) ≤ max 35 (min 95 _)
    exact le_max_left _ _
  · show max (35:ℤ) (min 95 _) ≤ 95
    exact max_le (by norm_num) (min_le_left _ _)

/-- C5 (amended): when the answer contains an uncertainty phrase the score is
capped at 55 by rule 5, but the later context-richness rule may still add up
to 8, so the final confidence is at most 63 (not 55). -/
theorem uncertainty_bounds_confidence_by_63 (query context answer : String)
    (h : uncertaintyHit answer = true) :
    (calculate_honest_confidence query context answer).1 ≤ 63 := by
  simp only [calculate_honest_confidence, h]
  exact max_le (by norm_num) (le_trans (min_le_right _ _) (capped_stages_le _ _ _))

set_option maxRecDepth 40000 in
/-- C5 (counterexample): with the uncertainty phrase "not provided" present
and a context of 808 characters, the final confidence is 59, strictly above
the claimed cap of 55 — the context-richness rule runs after the cap. -/
theorem uncertainty_cap_exceeded : uncertaintyHit uncertainAnswer = true ∧
    55 < (calculate_honest_confidence "beta" bigContext uncertainAnswer).1 := by
  constructor
  · with_unfolding_all decide
  · with_unfolding_all decide

/-- C5 (witness): the amended bound applied at a concrete uncertain answer. -/
theorem uncertainty_bounds_confidence_by_63_witness :
    (calculate_honest_confidence "q" "c" "unclear").1 ≤ 63 :=
  uncertainty_bounds_confidence_by_63 "q" "c" "unclear" (by with_unfolding_all decide)

/-- C4 (counterexample): on the input "cannot find." the detector as the claim
states it fires (12 chars, contains "cannot find"), but the code's
`is_empty_answer` returns false — its phrase list has no "cannot find". -/
theorem empty_answer_claim_false_on_cannot_find :
    spec_empty_detector "cannot find." = true ∧
    is_empty_answer (mkExplanation "cannot find.") = false := by
  constructor
  · with_unfolding_all decide
  · with_unfolding_all decide

/-- C4 (amended): `is_empty_answer` returns true iff the `meaning` text is
shorter than 150 characters and contains, case-insensitively, one of the
code's phrases ("does not contain", "not contain information", "context does
not", "does not address", "not specified", "not mentioned", "no information",
"[topic]", "[specific aspect"); in particular it is true on
"Not mentioned in this document." and false on every answer of length at
least 150, hence on any 300-character answer. -/
theorem empty_answer_characterization :
    (∀ e : Explanation, is_empty_answer e = true ↔
      (e.meaning.length < 150 ∧ ∃ p ∈ empty_phrases, containsSub (pyLower e.meaning) p = true)) ∧
    is_empty_answer (mkExplanation "Not mentioned in this document.") = true ∧
    (∀ e : Explanation, 150 ≤ e.meaning.length → is_empty_answer e = false) := by
  have hlen : ∀ e : Explanation, (pyLower e.meaning).length = e.meaning.length :=
    fun e => length_pyLower e.meaning
  refine ⟨?_, by with_unfolding_all decide, ?_⟩
  · intro e
    simp only [is_empty_answer, Bool.and_eq_true, List.any_eq_true, decide_eq_true_eq, hlen]
    exact and_comm
  · intro e he
    simp only [is_empty_answer, hlen]
    have : ¬ e.meaning.length < 150 := not_lt.mpr he
    simp [this]

set_option maxRecDepth 40000 in
/-- C4 (witness): the amended claim's universal parts applied at the
300-character answer containing "not mentioned" once. -/
theorem empty_answer_characterization_witness :
    150 ≤ (mkExplanation meaning300).meaning.length ∧
    is_empty_answer (mkExplanation meaning300) = false :=
  ⟨by with_unfolding_all decide, empty_answer_characterization.2.2 (mkExplanation meaning300) (by with_unfolding_all decide)⟩

/-- C8: the context handed to the generation capability is the hard
right-truncation (a prefix) of the blank-line-joined top-k chunk texts to
`max(400, 2000 - (350 + len(query)))` characters, and that budget never goes
below 400, however long the query is. -/
theorem context_truncation_budget (query : String) (rs : List RerankedResult) :
    context_to_use query (aggregate rs 3) =
      strTake (aggregate rs 3) (max_context_chars query).toNat ∧
    (context_to_use query (aggregate rs 3)).data <+: (aggregate rs 3).data ∧
    400 ≤ max_context_chars query := by
  refine ⟨context_to_use_eq_take _ _, ?_, le_max_left _ _⟩
  rw [context_to_use_eq_take]
  exact ⟨(aggregate rs 3).data.drop (max_context_chars query).toNat,
    List.take_append_drop _ _⟩

/-- C10: the retry-level detector `is_empty_answer` returns false on any
explanation whose meaning is the generator's out-of-context fallback text, so
when the generator substitutes that fallback the retry controller performs no
retry: the attempt sequence stays at the single top-3 context. -/
theorem fallback_never_triggers_retry :
    (∀ e : Explanation, e.meaning = no_info_message → is_empty_answer e = false) ∧
    (∀ (gen : GenFn) (query : String) (rs : List RerankedResult),
      (gen query (aggregate rs 3) (headMeta rs)).meaning = no_info_message →
      generation_attempts gen query rs = [aggregate rs 3]) := by
  have h1 : ∀ e : Explanation, e.meaning = no_info_message → is_empty_answer e = false := by
    intro e he
    simp only [is_empty_answer, he]
    with_unfolding_all decide
  refine ⟨h1, ?_⟩
  intro gen query rs hg
  simp only [generation_attempts]
  rw [h1 _ hg]
  simp

/-- C10 (witness): the fallback explanation itself, and a constant generator
returning it, exercise both parts. -/
theorem fallback_never_triggers_retry_witness :
    is_empty_answer (mkExplanation no_info_message) = false ∧
    generation_attempts (genOf (mkExplanation no_info_message)) "q" rsPair =
      [aggregate rsPair 3] :=
  ⟨fallback_never_triggers_retry.1 (mkExplanation no_info_message) rfl,
   fallback_never_triggers_retry.2 (genOf (mkExplanation no_info_message)) "q" rsPair rfl⟩

/-- C9 (counterexample): on the input `[" "]` the claim as stated requires the
first occurrence of the (non-empty) item `" "` to be kept, but
`deduplicate_items` drops it: the key is whitespace-stripped before the
emptiness test. -/
theorem dedup_drops_whitespace_item :
    deduplicate_items [" "] = [] ∧ (" " : String) ≠ "" := by
  constructor
  · with_unfolding_all decide
  · with_unfolding_all decide

/-- The reranking order is transitive. -/
lemma rerankLE_trans (a b c : RerankedResult)
    (hab : decide (b.score ≤ a.score) = true) (hbc : decide (c.score ≤ b.score) = true) :
    decide (c.score ≤ a.score) = true := by
  simp only [decide_eq_true_eq] at *
  exact le_trans hbc hab

/-- The reranking order is total. -/
lemma rerankLE_total (a b : RerankedResult) :
    (decide (b.score ≤ a.score) || decide (a.score ≤ b.score)) = true := by
  simp only [Bool.or_eq_true, decide_eq_true_eq]
  exact le_total b.score a.score

/-- C2: `rerank_by_answerability` preserves cardinality, returns (after
forgetting the annotations) a permutation of its input, gives every element
the combined score `0.7 × similarity + 0.3 × answerability bonus` with the
bonus computed by `calculate_answer_likelihood`, sorts descending by combined
score, and is stable: for every score value, the entries holding it appear
exactly as in the similarity-search order. -/
theorem rerank_sorted_stable_permutation (results : List SearchResult) (query : String) :
    (rerank_by_answerability results query).length = results.length ∧
    ((rerank_by_answerability results query).map toSearchResult).Perm results ∧
    (∀ r ∈ rerank_by_answerability results query,
      r.answer_bonus = calculate_answer_likelihood r.text query ∧
      r.score = r.original_score * (7/10) + r.answer_bonus * (3/10)) ∧
    (rerank_by_answerability results query).Pairwise (fun a b => b.score ≤ a.score) ∧
    (∀ c : ℚ, (rerank_by_answerability results query).filter (fun r => decide (r.score = c)) =
      (results.map (augmentResult query)).filter (fun r => decide (r.score = c))) := by
  have hmapid : (results.map (augmentResult query)).map toSearchResult = results := by
    rw [List.map_map]
    have : toSearchResult ∘ augmentResult query = id := by
      funext r
      rfl
    rw [this, List.map_id]
  refine ⟨?_, ?_, ?_, ?_, ?_⟩
  · rw [rerank_by_answerability, List.length_mergeSort, List.length_map]
  · have hp := List.mergeSort_perm (results.map (augmentResult query))
      (fun a b => decide (b.score ≤ a.score))
    have hp2 := hp.map toSearchResult
    rw [hmapid] at hp2
    rw [rerank_by_answerability]
    exact hp2
  · intro r hr
    rw [rerank_by_answerability, List.mem_mergeSort] at hr
    obtain ⟨s, _, rfl⟩ := List.mem_map.mp hr
    exact ⟨rfl, rfl⟩
  · have hs := @List.sorted_mergeSort RerankedResult (fun a b => decide (b.score ≤ a.score))
      rerankLE_trans rerankLE_total (results.map (augmentResult query))
    rw [rerank_by_answerability]
    exact hs.imp (fun h => of_decide_eq_true h)
  · intro c
    have hAmem : ∀ x ∈ (results.map (augmentResult query)).filter
        (fun r => decide (r.score = c)), x.score = c := by
      intro x hx
      simpa using (List.mem_filter.mp hx).2
    have hApair : ((results.map (augmentResult query)).filter
        (fun r => decide (r.score = c))).Pairwise
        (fun a b => decide (b.score ≤ a.score) = true) := by
      apply List.pairwise_of_forall_mem_list
      intro a ha b hb
      simp only [decide_eq_true_eq, hAmem a ha, hAmem b hb]
      exact le_refl c
    have hsub := List.sublist_mergeSort rerankLE_trans rerankLE_total hApair
      (List.filter_sublist (results.map (augmentResult query)))
    have hfix : (((results.map (augmentResult query)).filter
        (fun r => decide (r.score = c))).filter (fun r => decide (r.score = c))) =
        (results.map (augmentResult query)).filter (fun r => decide (r.score = c)) := by
      apply List.filter_eq_self.mpr
      intro a ha
      exact (List.mem_filter.mp ha).2
    have hsub2 := List.Sublist.filter (fun r : RerankedResult => decide (r.score = c)) hsub
    rw [hfix] at hsub2
    have hperm := (List.mergeSort_perm (results.map (augmentResult query))
      (fun a b => decide (b.score ≤ a.score))).filter (fun r => decide (r.score = c))
    rw [rerank_by_answerability]
    exact (hsub2.eq_of_length hperm.length_eq.symm).symm

/-- C9 (amended): `deduplicate_items` returns exactly the first occurrence of
each item whose lowercased, whitespace-stripped key is non-empty, keyed
case-insensitively on the stripped form, preserving first-seen order; in
particular `["Notice", "notice", "NOTICE"]` deduplicates to `["Notice"]`. -/
theorem dedup_first_seen_order :
    (∀ items, deduplicate_items items = dedup_first_occurrence items) ∧
    deduplicate_items ["Notice", "notice", "NOTICE"] = ["Notice"] := by
  constructor
  · intro items
    have h := dedupGo_eq items []
    simpa [deduplicate_items] using h
  · with_unfolding_all decide

/-- String concatenation concatenates the underlying character lists. -/
lemma data_append (a b : String) : (a ++ b).data = a.data ++ b.data := by
  cases a
  cases b
  rfl

/-- The top-2 aggregated context is a prefix of the top-3 aggregated context. -/
lemma aggregate_two_pref_of_three (rs : List RerankedResult) :
    (aggregate rs 2).data <+: (aggregate rs 3).data := by
  match rs with
  | [] => exact ⟨[], rfl⟩
  | [a] => exact ⟨[], by simp [aggregate, pyJoin]⟩
  | [a, b] => exact ⟨[], by simp [aggregate, pyJoin]⟩
  | a :: b :: c :: rest =>
    refine ⟨("\n\n" ++ c.text).data, ?_⟩
    show (aggregate (a :: b :: c :: rest) 2).data ++ _ = _
    simp [aggregate, pyJoin, data_append]

/-- The best chunk's raw text is a prefix of the top-2 aggregated context. -/
lemma headText_pref_of_two (rs : List RerankedResult) :
    (headText rs).data <+: (aggregate rs 2).data := by
  match rs with
  | [] => exact ⟨[], rfl⟩
  | [a] => exact ⟨[], by simp [headText, aggregate, pyJoin]⟩
  | a :: b :: rest =>
    refine ⟨("\n\n" ++ b.text).data, ?_⟩
    show (headText (a :: b :: rest)).data ++ _ = _
    simp [headText, aggregate, pyJoin, data_append]

/-- C3: the retry controller regenerates at most twice after the first
attempt; the single-chunk retry happens only when the narrowed top-2 retry
was attempted, its result was still detected empty, and more than one result
exists; the attempted contexts are top-3 aggregated, then top-2 aggregated,
then the best chunk's raw text, each a prefix of (never expanding on) the
previous one; and the explanation kept is the generation on the last
attempted context. -/
theorem retry_controller_narrowing (gen : GenFn) (query : String)
    (rs : List RerankedResult) :
    (generation_attempts gen query rs).length ≤ 3 ∧
    (generation_attempts gen query rs).head? = some (aggregate rs 3) ∧
    ((generation_attempts gen query rs).length = 3 →
      is_empty_answer (gen query (aggregate rs 3) (headMeta rs)) = true ∧
      is_empty_answer (gen query (aggregate rs 2) (headMeta rs)) = true ∧
      1 < rs.length ∧
      generation_attempts gen query rs =
        [aggregate rs 3, aggregate rs 2, headText rs]) ∧
    (generation_attempts gen query rs).Chain' (fun a b => b.data <+: a.data) ∧
    final_explanation gen query rs =
      gen query ((generation_attempts gen query rs).getLastD "") (headMeta rs) := by
  by_cases h1 : (is_empty_answer (gen query (aggregate rs 3) (headMeta rs)) &&
      decide (1 < rs.length)) = true
  · by_cases h2 : (is_empty_answer (gen query (aggregate rs 2) (headMeta rs)) &&
        decide (1 < rs.length)) = true
    · have hatt : generation_attempts gen query rs =
          [aggregate rs 3, aggregate rs 2, headText rs] := by
        simp only [generation_attempts]
        rw [if_pos h1, if_pos h2]
      have hfin : final_explanation gen query rs = gen query (headText rs) (headMeta rs) := by
        simp only [final_explanation]
        rw [if_pos h1, if_pos h2]
      rw [hatt, hfin]
      obtain ⟨he1, hlen⟩ := Bool.and_eq_true_iff.mp h1
      obtain ⟨he2, -⟩ := Bool.and_eq_true_iff.mp h2
      refine ⟨by simp, by simp, ?_, ?_, by simp⟩
      · intro _
        exact ⟨he1, he2, of_decide_eq_true hlen, rfl⟩
      · exact List.chain'_cons.mpr ⟨aggregate_two_pref_of_three rs,
          List.chain'_cons.mpr ⟨headText_pref_of_two rs, List.chain'_singleton _⟩⟩
    · have hatt : generation_attempts gen query rs = [aggregate rs 3, aggregate rs 2] := by
        simp only [generation_attempts]
        rw [if_pos h1, if_neg h2]
      have hfin : final_explanation gen query rs =
          gen query (aggregate rs 2) (headMeta rs) := by
        simp only [final_explanation]
        rw [if_pos h1, if_neg h2]
      rw [hatt, hfin]
      refine ⟨by simp, by simp, by simp, ?_, by simp⟩
      exact List.chain'_cons.mpr ⟨aggregate_two_pref_of_three rs, List.chain'_singleton _⟩
  · have hatt : generation_attempts gen query rs = [aggregate rs 3] := by
      simp only [generation_attempts]
      rw [if_neg h1]
    have hfin : final_explanation gen query rs =
        gen query (aggregate rs 3) (headMeta rs) := by
      simp only [final_explanation]
      rw [if_neg h1]
    rw [hatt, hfin]
    exact ⟨by simp, by simp, by simp, List.chain'_singleton _, by simp⟩

/-- C3 (witness): with two results and a generator that always returns a
detected-empty answer, all three narrowing attempts happen. -/
theorem retry_controller_narrowing_witness :
    is_empty_answer ((genOf expEmpty) "q" (aggregate rsPair 3) (headMeta rsPair)) = true ∧
    is_empty_answer ((genOf expEmpty) "q" (aggregate rsPair 2) (headMeta rsPair)) = true ∧
    1 < rsPair.length ∧
    generation_attempts (genOf expEmpty) "q" rsPair =
      [aggregate rsPair 3, aggregate rsPair 2, headText rsPair] :=
  (retry_controller_narrowing (genOf expEmpty) "q" rsPair).2.2.1
    (by with_unfolding_all decide)

/-- C1: whenever the index returns at least one result and the top similarity
is below 0.5, `query_clauses` short-circuits to the fixed no-information
response — confidence 30, reason "Query does not match document content",
empty matched terms, and the fixed no-information answer text as both summary
and meaning — regardless of the query and of the generation backend. -/
theorem low_relevance_gate_fixed_response (gen : GenFn) (query : String)
    (top : SearchResult) (rest : List SearchResult) (top_k : ℕ)
    (h : top.score < 1/2) :
    query_clauses_core gen query (top :: rest) top_k =
      QueryResponse.ok
        { title := "Information Not Available", sectionLabel := "N/A", content := "" }
        { summary := no_info_message, meaning := no_info_message, favoredParty := "N/A",
          keyTerms := [], practicalImpact := "", confidence := 30,
          confidenceReason := "Query does not match document content" }
        { score := pyInt (top.score * 100), matchedTerms := [] } := by
  simp only [query_clauses_core]
  rw [if_pos h]

/-- C1 (witness): the gate at similarity 1/4 with a concrete backend. -/
theorem low_relevance_gate_fixed_response_witness :
    searchLow.score < 1/2 ∧
    query_clauses_core (genOf expYes) "anything" [searchLow] 3 =
      QueryResponse.ok
        { title := "Information Not Available", sectionLabel := "N/A", content := "" }
        { summary := no_info_message, meaning := no_info_message, favoredParty := "N/A",
          keyTerms := [], practicalImpact := "", confidence := 30,
          confidenceReason := "Query does not match document content" }
        { score := pyInt (searchLow.score * 100), matchedTerms := [] } :=
  ⟨by with_unfolding_all decide,
   low_relevance_gate_fixed_response (genOf expYes) "anything" searchLow [] 3
     (by with_unfolding_all decide)⟩

/-- Every reranked entry keeps some input entry's similarity as its
`original_score`. -/
lemma rerank_original_score_mem (results : List SearchResult) (query : String) :
    ∀ r ∈ rerank_by_answerability results query, ∃ s ∈ results, r.original_score = s.score := by
  intro r hr
  rw [rerank_by_answerability, List.mem_mergeSort] at hr
  obtain ⟨s, hs, rfl⟩ := List.mem_map.mp hr
  exact ⟨s, hs, rfl⟩

/-- C7 (amended): provided every returned similarity lies in [0, 1] — the
practical range for this domain — and `top_k` is positive, the
`relevance.score` of every non-error response is an integer in [0, 100]; with
a negative similarity the field goes negative (see the counterexample). -/
theorem relevance_score_in_0_100 (gen : GenFn) (query : String)
    (results : List SearchResult) (top_k : ℕ)
    (hscores : ∀ r ∈ results, 0 ≤ r.score ∧ r.score ≤ 1) (htop : 0 < top_k) :
    ∀ z ∈ relevanceScoreOf (query_clauses_core gen query results top_k),
      0 ≤ z ∧ z ≤ 100 := by
  intro z hz
  cases results with
  | nil => simp [query_clauses_core, relevanceScoreOf] at hz
  | cons top rest =>
    by_cases hgate : top.score < 1/2
    · rw [Option.mem_def] at hz
      simp only [query_clauses_core] at hz
      rw [if_pos hgate] at hz
      simp only [relevanceScoreOf, Option.some.injEq] at hz
      subst hz
      exact pyInt_hundred_bounds (hscores top (List.mem_cons_self _ _)).1
        (hscores top (List.mem_cons_self _ _)).2
    · rw [Option.mem_def] at hz
      simp only [query_clauses_core] at hz
      rw [if_neg hgate] at hz
      simp only [relevanceScoreOf, Option.some.injEq] at hz
      have hlenr : (rerank_by_answerability ((top :: rest).take top_k) query).length =
          ((top :: rest).take top_k).length := by
        rw [rerank_by_answerability, List.length_mergeSort, List.length_map]
      have hne : rerank_by_answerability ((top :: rest).take top_k) query ≠ [] := by
        intro hempty
        rw [hempty] at hlenr
        simp [List.length_take] at hlenr
        omega
      have hmem : (rerank_by_answerability ((top :: rest).take top_k) query).headI ∈
          rerank_by_answerability ((top :: rest).take top_k) query := by
        cases hcase : rerank_by_answerability ((top :: rest).take top_k) query with
        | nil => exact absurd hcase hne
        | cons a l => simp
      obtain ⟨s, hs, hos⟩ := rerank_original_score_mem _ _ _ hmem
      have hsmem : s ∈ top :: rest := List.mem_of_mem_take hs
      rw [← hz, hos]
      exact pyInt_hundred_bounds (hscores s hsmem).1 (hscores s hsmem).2

/-- C7 (counterexample): with the spec's own similarity range allowing
negative cosine values, a top similarity of -1/5 passes through the
low-relevance gate and yields `relevance.score = -20`, outside [0, 100]. -/
theorem relevance_score_negative_example :
    relevanceScoreOf (query_clauses_core (genOf expYes) "q" [searchNeg] 3) = some (-20) ∧
    ¬(0 ≤ (-20 : ℤ)) := by
  constructor
  · with_unfolding_all decide
  · decide

/-- C7 (witness): the amended bound at a passing similarity of 3/5. -/
theorem relevance_score_in_0_100_witness : (0:ℤ) ≤ 60 ∧ (60:ℤ) ≤ 100 :=
  relevance_score_in_0_100 (genOf expYes) "q" [searchOk] 1
    (by with_unfolding_all decide) (by decide) 60 (by
      have hg : ¬(searchOk.score < 1/2) := by with_unfolding_all decide
      rw [Option.mem_def]
      simp only [query_clauses_core]
      rw [if_neg hg]
      simp only [relevanceScoreOf, Option.some.injEq]
      rw [show (List.take 1 [searchOk]) = [searchOk] from rfl]
      rw [rerank_by_answerability]
      rw [show List.map (augmentResult "q") [searchOk] = [augmentResult "q" searchOk] from rfl]
      rw [List.mergeSort_singleton]
      with_unfolding_all decide)

end ClauseRAG
